import Mathlib

/-!
Verification of the Orbit MVP subscription lifecycle engine.

This file gives a shallow embedding of the billing-state engine of the
repository (the `subscriptionCheck` reconciler, the admin lifecycle routes
and the lead-intake route of `src/src/server.js`, plus the intake-approval
code derivation of the `src/unnamed/part_000` variant), and proves the
spec's testable properties about it.

Conventions of the embedding:
- Timestamps are integers counting milliseconds (a JS `Date.getTime()`
  value); `Date.now()` is passed in explicitly as `now`.
- The Prisma client table is a `List Client`; `update` is an in-place map.
- `sendEmail`'s network call is modelled by an oracle assigning each
  attempted email a transport outcome (`Except.error` = a thrown
  transport error).  The list of attempted emails together with their
  results is returned as a log.
- Environment variables that are tested for truthiness (`YOUR_NOTIFY_EMAIL`,
  the SMTP settings) are strings where `""` models an unset variable.
-/

namespace Orbit

/-- One hour in milliseconds. -/
def msPerHour : Int := 1000 * 60 * 60

/-- One day in milliseconds (the `1000 * 60 * 60 * 24` of `getDaysLeft`). -/
def msPerDay : Int := 1000 * 60 * 60 * 24

/-- `Math.ceil (a / b)` for integer `a` and positive integer `b`:
the ceiling of the exact rational quotient. -/
def ceilDiv (a b : Int) : Int := -((-a) / b)

/-- A client row (`model Client` used by `src/src/server.js`).
`status` is `"ACTIVE"` or `"PAUSED"`; nullable columns are `Option`. -/
structure Client where
  id : Nat
  code : String
  name : String
  email : String
  bookingLink : Option String
  status : String
  startedAt : Option Int
  dueAt : Option Int
  pausedAt : Option Int
  pauseReason : Option String
  lastReminderAt : Option Int
deriving Repr, DecidableEq

/-- A lead row persisted by `POST /c/:code/lead`. -/
structure Lead where
  clientId : Nat
  name : String
  email : String
  phone : Option String
  message : Option String
deriving Repr, DecidableEq

/-- `addDays` of `src/src/server.js` lines 44-48.  `setDate` advances the
calendar day; with no DST in the model this is exactly `days` whole days. -/
def addDays (t : Int) (days : Int) : Int := t + days * msPerDay

/-- `getDaysLeft` of `src/src/server.js` lines 50-54:
`Math.ceil ((dueAt - now) / msPerDay)`, `null` when `dueAt` is `null`. -/
def getDaysLeft (now : Int) (dueAt : Option Int) : Option Int :=
  match dueAt with
  | none => none
  | some d => some (ceilDiv (d - now) msPerDay)

/-- An attempted outbound email: `toAddr` is the `to` field of the JS
message (`to` is reserved in Lean), `subject` the subject line. -/
structure Email where
  toAddr : String
  subject : String
deriving Repr, DecidableEq

/-- The SMTP environment variables checked by `smtpReady`
(`""` models an unset variable). -/
structure EmailConfig where
  smtpHost : String
  smtpPort : String
  smtpUser : String
  smtpPass : String
deriving Repr, DecidableEq

/-- `smtpReady` of `src/src/server.js` lines 80-87: all four SMTP
variables are set (truthy). -/
def smtpReady (cfg : EmailConfig) : Bool :=
  cfg.smtpHost != "" && cfg.smtpPort != "" && cfg.smtpUser != "" && cfg.smtpPass != ""

/-- The value `sendEmail` resolves with: `{ ok, error? }`. -/
structure EmailResult where
  ok : Bool
  error : Option String
deriving Repr, DecidableEq

/-- The body of the `try` block of `sendEmail` (`src/src/server.js` lines
94-114).  `transport` is the outcome of `transporter.sendMail`;
`Except.error e` models a thrown transport error, which this inner
function propagates. -/
def sendEmailAttempt (cfg : EmailConfig) (transport : Except String Unit) :
    Except String EmailResult :=
  if !(smtpReady cfg) then
    Except.ok { ok := false, error := none }
  else
    match transport with
    | Except.error e => Except.error e
    | Except.ok _ => Except.ok { ok := true, error := none }

/-- `sendEmail` of `src/src/server.js` lines 93-119: the `try`/`catch`
wrapper around `sendEmailAttempt`.  The `catch` block turns every thrown
error into the plain value `{ ok: false, error }`, so the function is
total: it never propagates an exception. -/
def sendEmail (cfg : EmailConfig) (transport : Except String Unit) : EmailResult :=
  match sendEmailAttempt cfg transport with
  | Except.ok r => r
  | Except.error e => { ok := false, error := some e }

/-- The configuration the reconciler and routes read from the environment:
`YOUR_NOTIFY_EMAIL` (operator address, `""` = unset), `REMIND_DAYS_BEFORE`
and `PLAN_DAYS`. -/
structure Config where
  notifyEmail : String
  remindDaysBefore : Int
  planDays : Int
deriving Repr, DecidableEq

/-- One call of `sendEmail` for email `e`: the email paired with the
result `sendEmail` returned for the oracle's transport outcome. -/
def sendTo (econf : EmailConfig) (oracle : Email → Except String Unit)
    (e : Email) : Email × EmailResult :=
  (e, sendEmail econf (oracle e))

/-- Subject of the reminder email (`src/src/server.js` line 151). -/
def reminderSubject (left : Int) : String :=
  "Payment Reminder: " ++ toString left ++ " day(s) left"

/-- Subject of the pause email (`src/src/server.js` lines 171 and 285). -/
def pausedSubject : String := "Account Paused: Payment Required"

/-- Subject of the operator auto-pause notification
(`src/src/server.js` line 183). -/
def autoPausedSubject (c : Client) : String :=
  "Client Auto-Paused: " ++ c.name ++ " (" ++ c.code ++ ")"

/-- Subject of the reactivation email (`src/src/server.js` line 313). -/
def reactivatedSubject : String := "Payment Received: Account Reactivated"

/-- Subject of the new-lead client notification (line 419). -/
def newLeadSubject : String := "New Lead Received ✅"

/-- Subject of the new-lead operator notification (line 436). -/
def clientNewLeadSubject (c : Client) : String :=
  "Client New Lead: " ++ c.name ++ " (" ++ c.code ++ ")"

/-- Subject of the auto-reply to the lead (line 445). -/
def bookYourCallSubject : String := "Thanks — Book Your Call"

/-- The body of the `for` loop of `subscriptionCheck`
(`src/src/server.js` lines 132-188) for one client `c`:

- skip the client when `dueAt` is `null`;
- reminder branch (lines 137-160): if the client is ACTIVE, `0 < left`
  and `left <= REMIND_DAYS_BEFORE`, and no reminder was recorded within
  the last 24 hours, record `lastReminderAt = now` and send the reminder;
- expiry branch (lines 162-187): if the (fetched) client is ACTIVE and
  `left <= 0`, set `status = "PAUSED"`, `pausedAt = now`,
  `pauseReason = "expired"`, email the client, and email the operator
  when `YOUR_NOTIFY_EMAIL` is set.

Returns the client's new row and the log of attempted emails with their
`sendEmail` results. -/
def checkClient (cfg : Config) (econf : EmailConfig) (now : Int)
    (oracle : Email → Except String Unit) (c : Client) :
    Client × List (Email × EmailResult) :=
  match c.dueAt with
  | none => (c, [])
  | some due =>
    let left := ceilDiv (due - now) msPerDay
    let already : Bool :=
      match c.lastReminderAt with
      | some t => decide (now - t < 24 * msPerHour)
      | none => false
    let step1 : Client × List (Email × EmailResult) :=
      if c.status = "ACTIVE" ∧ left ≤ cfg.remindDaysBefore ∧ 0 < left then
        if already then (c, [])
        else ({ c with lastReminderAt := some now },
              [sendTo econf oracle ⟨c.email, reminderSubject left⟩])
      else (c, [])
    if c.status = "ACTIVE" ∧ left ≤ 0 then
      ({ step1.1 with status := "PAUSED", pausedAt := some now,
                      pauseReason := some "expired" },
       step1.2 ++ [sendTo econf oracle ⟨c.email, pausedSubject⟩] ++
         (if cfg.notifyEmail ≠ "" then
            [sendTo econf oracle ⟨cfg.notifyEmail, autoPausedSubject c⟩]
          else []))
    else step1

/-- `subscriptionCheck` of `src/src/server.js` lines 127-189: one
reconciliation pass over the fetched client rows, in order, threading the
per-client updates and concatenating the email logs. -/
def subscriptionCheck (cfg : Config) (econf : EmailConfig) (now : Int)
    (oracle : Email → Except String Unit) :
    List Client → List Client × List (Email × EmailResult)
  | [] => ([], [])
  | c :: rest =>
    let r := checkClient cfg econf now oracle c
    let rs := subscriptionCheck cfg econf now oracle rest
    (r.1 :: rs.1, r.2 ++ rs.2)

/-- The emails a log attempted (the calls made to `sendEmail`,
delivered or not). -/
def attempted (log : List (Email × EmailResult)) : List Email :=
  log.map (fun p => p.1)

/-- `prisma.client.findUnique({ where: { id } })` over the table. -/
def findClientById (clients : List Client) (i : Nat) : Option Client :=
  clients.find? (fun c => c.id == i)

/-- `prisma.client.findUnique({ where: { code } })` over the table. -/
def findClientByCode (clients : List Client) (code : String) : Option Client :=
  clients.find? (fun c => c.code == code)

/-- `prisma.client.update({ where: { id }, data })`: patch every row whose
`id` matches (`id` is unique in the store; `map` is the list analogue). -/
def updateClientById (clients : List Client) (i : Nat) (f : Client → Client) :
    List Client :=
  clients.map (fun c => if c.id == i then f c else c)

/-- The `data` patch of `POST /admin/clients/:id/paid`
(`src/src/server.js` lines 306-309): force ACTIVE, restart the period,
reset `dueAt` to `now + PLAN_DAYS`, null `pausedAt` and `pauseReason`.
Note the patch does not touch `lastReminderAt`. -/
def markPaidUpdate (now : Int) (planDays : Int) (c : Client) : Client :=
  { c with status := "ACTIVE", startedAt := some now,
           dueAt := some (addDays now planDays),
           pausedAt := none, pauseReason := none }

/-- `POST /admin/clients/:id/paid` (`src/src/server.js` lines 298-318):
look the client up; on miss redirect with no change; otherwise apply
`markPaidUpdate` and send the reactivation email. -/
def markPaidRoute (cfg : Config) (econf : EmailConfig) (now : Int)
    (oracle : Email → Except String Unit) (clients : List Client) (i : Nat) :
    List Client × List (Email × EmailResult) :=
  match findClientById clients i with
  | none => (clients, [])
  | some c =>
    (updateClientById clients i (markPaidUpdate now cfg.planDays),
     [sendTo econf oracle ⟨c.email, reactivatedSubject⟩])

/-- The `data` patch of `POST /admin/clients/:id/pause`
(`src/src/server.js` lines 278-281). -/
def pauseUpdate (now : Int) (c : Client) : Client :=
  { c with status := "PAUSED", pausedAt := some now,
           pauseReason := some "manual" }

/-- `POST /admin/clients/:id/pause` (`src/src/server.js` lines 273-295):
look the client up; on miss redirect with no change; otherwise apply
`pauseUpdate` unconditionally (no check of the current status) and send
the pause email. -/
def pauseRoute (econf : EmailConfig) (now : Int)
    (oracle : Email → Except String Unit) (clients : List Client) (i : Nat) :
    List Client × List (Email × EmailResult) :=
  match findClientById clients i with
  | none => (clients, [])
  | some c =>
    (updateClientById clients i (pauseUpdate now),
     [sendTo econf oracle ⟨c.email, pausedSubject⟩])

/-- The lead record built by `POST /c/:code/lead` (`src/src/server.js`
lines 404-412); empty optional fields are stored as `null`. -/
def leadOf (client : Client) (name email phone message : String) : Lead :=
  { clientId := client.id, name := name, email := email,
    phone := if phone = "" then none else some phone,
    message := if message = "" then none else some message }

/-- `POST /c/:code/lead` (`src/src/server.js` lines 394-458): `none` is
the 404 on an unknown code; otherwise the lead is always persisted, and
only when the owning client is ACTIVE are the client notification, the
operator notification (when `YOUR_NOTIFY_EMAIL` is set) and the
booking-link auto-reply (when the client has one) attempted. -/
def leadRoute (cfg : Config) (econf : EmailConfig)
    (oracle : Email → Except String Unit) (clients : List Client)
    (leads : List Lead) (code name email phone message : String) :
    Option (List Lead × List (Email × EmailResult)) :=
  match findClientByCode clients code with
  | none => none
  | some client =>
    let lead := leadOf client name email phone message
    let log :=
      if client.status = "ACTIVE" then
        [sendTo econf oracle ⟨client.email, newLeadSubject⟩] ++
        (if cfg.notifyEmail ≠ "" then
           [sendTo econf oracle ⟨cfg.notifyEmail, clientNewLeadSubject client⟩]
         else []) ++
        (if client.bookingLink.isSome then
           [sendTo econf oracle ⟨lead.email, bookYourCallSubject⟩]
         else [])
      else []
    some (leads ++ [lead], log)

/-- The character class kept by the `replace(/[^a-z0-9]/g, "")` of the
intake-approval code derivation (`src/unnamed/part_000` line 253). -/
def isCodeChar (ch : Char) : Bool :=
  (decide ('a' ≤ ch) && decide (ch ≤ 'z')) ||
  (decide ('0' ≤ ch) && decide (ch ≤ '9'))

/-- Base code derivation of `POST /admin/intakes/:id/approve`
(`src/unnamed/part_000` lines 251-256): default the business name to
`"client"`, lowercase (character-wise, as `toLowerCase` acts on the
ASCII names involved), strip non-alphanumerics, truncate to 12
characters, and fall back to `"client"` when nothing remains. -/
def deriveBaseCode (businessName : String) : String :=
  let s := if businessName = "" then "client" else businessName
  let base := String.mk (((s.toList.map Char.toLower).filter isCodeChar).take 12)
  if base = "" then "client" else base

/-- The `n`-th candidate of the collision loop (`src/unnamed/part_000`
lines 257-262): the bare base first, then `base ++ toString n` for
`n = 2, 3, ...`. -/
def codeCandidate (base : String) (n : Nat) : String :=
  if n = 1 then base else base ++ toString n

/-- Whether a code is already taken by a client row. -/
def codeTaken (clients : List Client) (code : String) : Bool :=
  (findClientByCode clients code).isSome

/-- The collision `while` loop: try candidates from `n` upward while they
are taken.  The store is finite, so `clients.length + 1` iterations
always reach a free candidate; the fuel only bounds the recursion. -/
def searchFreeCode (clients : List Client) (base : String) :
    Nat → Nat → String
  | 0, n => codeCandidate base n
  | fuel + 1, n =>
    if codeTaken clients (codeCandidate base n) then
      searchFreeCode clients base fuel (n + 1)
    else codeCandidate base n

/-- The whole code derivation of `POST /admin/intakes/:id/approve`
(`src/unnamed/part_000` lines 251-262). -/
def deriveUniqueCode (clients : List Client) (businessName : String) : String :=
  searchFreeCode clients (deriveBaseCode businessName) (clients.length + 1) 1

/-! ### Supporting lemmas -/

lemma data_head_pausedSubject : pausedSubject.data.head? = some 'A' := rfl

lemma data_head_reminderSubject (j : Int) :
    (reminderSubject j).data.head? = some 'P' := by
  show ("Payment Reminder: " ++ toString j ++ " day(s) left").data.head? = some 'P'
  rw [String.data_append, String.data_append]
  rfl

lemma data_head_autoPausedSubject (c : Client) :
    (autoPausedSubject c).data.head? = some 'C' := by
  show ("Client Auto-Paused: " ++ c.name ++ " (" ++ c.code ++ ")").data.head? =
    some 'C'
  rw [String.data_append, String.data_append, String.data_append,
      String.data_append]
  rfl

/-- The pause email is not a reminder email (distinct subjects). -/
lemma pausedSubject_beq_reminderSubject (j : Int) :
    (pausedSubject == reminderSubject j) = false := by
  rw [beq_eq_false_iff_ne]
  intro h
  have hA := data_head_pausedSubject
  rw [h, data_head_reminderSubject] at hA
  exact absurd hA (by decide)

/-- The operator auto-pause email is not a reminder email. -/
lemma autoPausedSubject_beq_reminderSubject (c : Client) (j : Int) :
    (autoPausedSubject c == reminderSubject j) = false := by
  rw [beq_eq_false_iff_ne]
  intro h
  have hC := data_head_autoPausedSubject c
  rw [h, data_head_reminderSubject] at hC
  exact absurd hC (by decide)

/-- Expiry branch of `checkClient`: an ACTIVE client with `daysLeft <= 0`
is paused with reason `"expired"`, the client is emailed, and the
operator is emailed exactly when `YOUR_NOTIFY_EMAIL` is set. -/
lemma checkClient_expired (cfg : Config) (econf : EmailConfig) (now : Int)
    (oracle : Email → Except String Unit) (c : Client) (due : Int)
    (hdue : c.dueAt = some due) (hact : c.status = "ACTIVE")
    (hk : ceilDiv (due - now) msPerDay ≤ 0) :
    checkClient cfg econf now oracle c =
      ({ c with status := "PAUSED", pausedAt := some now,
                pauseReason := some "expired" },
       [sendTo econf oracle ⟨c.email, pausedSubject⟩] ++
         (if cfg.notifyEmail ≠ "" then
            [sendTo econf oracle ⟨cfg.notifyEmail, autoPausedSubject c⟩]
          else [])) := by
  have hnrem : ¬(c.status = "ACTIVE" ∧
      ceilDiv (due - now) msPerDay ≤ cfg.remindDaysBefore ∧
      0 < ceilDiv (due - now) msPerDay) := by
    rintro ⟨-, -, h3⟩
    omega
  simp only [checkClient, hdue, if_neg hnrem, if_pos (And.intro hact hk),
    List.nil_append]

/-- Reminder branch of `checkClient`: an ACTIVE client with
`0 < daysLeft <= REMIND_DAYS_BEFORE` and no reminder in the last 24 hours
gets `lastReminderAt = now` and exactly one reminder email. -/
lemma checkClient_reminder (cfg : Config) (econf : EmailConfig) (now : Int)
    (oracle : Email → Except String Unit) (c : Client) (due : Int)
    (hdue : c.dueAt = some due) (hact : c.status = "ACTIVE")
    (h0 : 0 < ceilDiv (due - now) msPerDay)
    (hw : ceilDiv (due - now) msPerDay ≤ cfg.remindDaysBefore)
    (hnr : ∀ t, c.lastReminderAt = some t → 24 * msPerHour ≤ now - t) :
    checkClient cfg econf now oracle c =
      ({ c with lastReminderAt := some now },
       [sendTo econf oracle
          ⟨c.email, reminderSubject (ceilDiv (due - now) msPerDay)⟩]) := by
  have hnp : ¬(c.status = "ACTIVE" ∧ ceilDiv (due - now) msPerDay ≤ 0) := by
    rintro ⟨-, h2⟩
    omega
  cases hl : c.lastReminderAt with
  | none =>
    simp only [checkClient, hdue, hl, if_pos (And.intro hact (And.intro hw h0)),
      if_neg hnp, Bool.false_eq_true, if_false]
  | some t =>
    have hd : decide (now - t < 24 * msPerHour) = false := by
      have := hnr t hl
      simp only [decide_eq_false_iff_not]
      omega
    simp only [checkClient, hdue, hl, hd,
      if_pos (And.intro hact (And.intro hw h0)), if_neg hnp,
      Bool.false_eq_true, if_false]

/-- Throttle branch of `checkClient`: when a reminder was recorded less
than 24 hours ago, `lastReminderAt` is untouched and no reminder email is
attempted (only pause emails can appear in the log). -/
lemma checkClient_suppressed (cfg : Config) (econf : EmailConfig) (now : Int)
    (oracle : Email → Except String Unit) (c : Client) (t : Int)
    (hl : c.lastReminderAt = some t) (hlt : now - t < 24 * msPerHour) :
    (checkClient cfg econf now oracle c).1.lastReminderAt = some t ∧
    ∀ j : Int, ((attempted (checkClient cfg econf now oracle c).2).countP
      (fun e => e.subject == reminderSubject j)) = 0 := by
  have hd : decide (now - t < 24 * msPerHour) = true := decide_eq_true hlt
  cases hdue : c.dueAt with
  | none => simp [checkClient, hdue, hl, attempted]
  | some due =>
    simp only [checkClient, hdue, hl, hd, if_true]
    constructor
    · split_ifs <;> simp [hl]
    · intro j
      split_ifs <;>
        simp [attempted, sendTo, List.countP_cons,
          pausedSubject_beq_reminderSubject,
          autoPausedSubject_beq_reminderSubject]

/-- A reconciliation pass updates each client exactly as `checkClient`
does, position by position. -/
lemma subscriptionCheck_fst (cfg : Config) (econf : EmailConfig) (now : Int)
    (oracle : Email → Except String Unit) :
    ∀ clients : List Client,
      (subscriptionCheck cfg econf now oracle clients).1 =
        clients.map (fun c => (checkClient cfg econf now oracle c).1)
  | [] => rfl
  | c :: rest => by
    simp [subscriptionCheck, subscriptionCheck_fst cfg econf now oracle rest]

/-- Patching by id then looking the id up returns the patched row,
provided the patch keeps the id. -/
lemma findClientById_updateClientById (clients : List Client) (i : Nat)
    (f : Client → Client) (hf : ∀ c, (f c).id = c.id) :
    findClientById (updateClientById clients i f) i =
      (findClientById clients i).map f := by
  induction clients with
  | nil => rfl
  | cons c rest ih =>
    by_cases h : (c.id == i) = true
    · simp [updateClientById, findClientById, List.find?, h, hf c]
    · have h' : (c.id == i) = false := by simpa using h
      simp [updateClientById, findClientById, List.find?, h']
      simpa [updateClientById, findClientById] using ih

/-- The client states and attempted emails of `checkClient` do not depend
on the transport outcomes of the individual sends. -/
lemma checkClient_oracle_irrelevant (cfg : Config) (econf : EmailConfig)
    (now : Int) (o o' : Email → Except String Unit) (c : Client) :
    (checkClient cfg econf now o c).1 = (checkClient cfg econf now o' c).1 ∧
    attempted (checkClient cfg econf now o c).2 =
      attempted (checkClient cfg econf now o' c).2 := by
  cases hdue : c.dueAt with
  | none => simp [checkClient, hdue]
  | some due =>
    simp only [checkClient, hdue]
    split_ifs <;> simp [attempted, sendTo]

/-- The candidate the collision loop returns is free whenever some
candidate inside the fuel window is free. -/
lemma searchFreeCode_free (clients : List Client) (base : String) :
    ∀ fuel start : Nat,
      (∃ j, start ≤ j ∧ j < start + fuel ∧
        codeTaken clients (codeCandidate base j) = false) →
      codeTaken clients (searchFreeCode clients base fuel start) = false
  | 0, start => by
    rintro ⟨j, hj1, hj2, -⟩
    omega
  | fuel + 1, start => by
    rintro ⟨j, hj1, hj2, hfree⟩
    by_cases h : codeTaken clients (codeCandidate base start) = true
    · rw [searchFreeCode, if_pos h]
      apply searchFreeCode_free clients base fuel (start + 1)
      refine ⟨j, ?_, ?_, hfree⟩
      · rcases Nat.eq_or_lt_of_le hj1 with rfl | hlt
        · rw [h] at hfree
          exact absurd hfree (by simp)
        · omega
      · omega
    · rw [searchFreeCode, if_neg h]
      simpa using h

/-- Folding `msPerHour` to its numeral. -/
lemma msPerHour_eq : msPerHour = 3600000 := by norm_num [msPerHour]

/-- Folding `msPerDay` to its numeral. -/
lemma msPerDay_eq : msPerDay = 86400000 := by norm_num [msPerDay]

/-! ### Claims -/

/-- C1: for every client with `status = ACTIVE`, non-null `dueAt` and
`daysLeft <= 0`, one reconciliation pass sets `status = PAUSED`,
`pausedAt = now`, `pauseReason = "expired"`, attempts exactly one pause
notification to the client, and attempts one operator notification
exactly when `YOUR_NOTIFY_EMAIL` is configured; the pass treats every
client this way position by position. -/
theorem expired_active_client_paused
    (cfg : Config) (econf : EmailConfig) (now : Int)
    (oracle : Email → Except String Unit) (c : Client) (k : Int)
    (hact : c.status = "ACTIVE")
    (hdl : getDaysLeft now c.dueAt = some k) (hk : k ≤ 0) :
    (checkClient cfg econf now oracle c).1.status = "PAUSED" ∧
    (checkClient cfg econf now oracle c).1.pausedAt = some now ∧
    (checkClient cfg econf now oracle c).1.pauseReason = some "expired" ∧
    attempted (checkClient cfg econf now oracle c).2 =
      [⟨c.email, pausedSubject⟩] ++
        (if cfg.notifyEmail ≠ "" then
          [⟨cfg.notifyEmail, autoPausedSubject c⟩] else []) ∧
    ∀ clients : List Client,
      (subscriptionCheck cfg econf now oracle clients).1 =
        clients.map (fun x => (checkClient cfg econf now oracle x).1) := by
  cases hdue : c.dueAt with
  | none => rw [hdue] at hdl; exact absurd hdl (by simp [getDaysLeft])
  | some due =>
    rw [hdue] at hdl
    have hk' : ceilDiv (due - now) msPerDay = k := by
      simpa [getDaysLeft] using hdl
    rw [checkClient_expired cfg econf now oracle c due hdue hact (by omega)]
    refine ⟨rfl, rfl, rfl, ?_, subscriptionCheck_fst cfg econf now oracle⟩
    by_cases hn : cfg.notifyEmail ≠ "" <;> simp [attempted, sendTo, hn]

/-- C1 witness: a client due 100 ms in the past is paused by the pass. -/
theorem expired_active_client_paused_witness :
    (checkClient ⟨"op@x", 3, 30⟩ ⟨"", "", "", ""⟩ 0 (fun _ => Except.ok ())
       ⟨1, "ac", "Acme", "a@x", none, "ACTIVE", none, some (-100), none,
        none, none⟩).1.status = "PAUSED" :=
  (expired_active_client_paused ⟨"op@x", 3, 30⟩ ⟨"", "", "", ""⟩ 0
    (fun _ => Except.ok ())
    ⟨1, "ac", "Acme", "a@x", none, "ACTIVE", none, some (-100), none,
     none, none⟩ 0 rfl (by decide) (by decide)).1

/-- C2: for every client with `status = ACTIVE`,
`0 < daysLeft <= REMIND_DAYS_BEFORE` and no reminder within the last 24
hours, one reconciliation pass records `lastReminderAt = now` and
attempts exactly one reminder email whose subject carries the days-left
figure, for every `daysLeft` value `k` in the window. -/
theorem reminder_recorded_and_sent
    (cfg : Config) (econf : EmailConfig) (now : Int)
    (oracle : Email → Except String Unit) (c : Client) (k : Int)
    (hact : c.status = "ACTIVE")
    (hdl : getDaysLeft now c.dueAt = some k)
    (h0 : 0 < k) (hw : k ≤ cfg.remindDaysBefore)
    (hnr : ∀ t, c.lastReminderAt = some t → 24 * msPerHour ≤ now - t) :
    (checkClient cfg econf now oracle c).1.lastReminderAt = some now ∧
    attempted (checkClient cfg econf now oracle c).2 =
      [⟨c.email, reminderSubject k⟩] ∧
    ∀ clients : List Client,
      (subscriptionCheck cfg econf now oracle clients).1 =
        clients.map (fun x => (checkClient cfg econf now oracle x).1) := by
  cases hdue : c.dueAt with
  | none => rw [hdue] at hdl; exact absurd hdl (by simp [getDaysLeft])
  | some due =>
    rw [hdue] at hdl
    have hk' : ceilDiv (due - now) msPerDay = k := by
      simpa [getDaysLeft] using hdl
    rw [checkClient_reminder cfg econf now oracle c due hdue hact (by omega)
      (by omega) hnr]
    refine ⟨rfl, ?_, subscriptionCheck_fst cfg econf now oracle⟩
    simp [attempted, sendTo, hk']

/-- C2 witness: a client due in 2 days with the default 3-day window and
no prior reminder gets `lastReminderAt` stamped. -/
theorem reminder_recorded_and_sent_witness :
    (checkClient ⟨"", 3, 30⟩ ⟨"", "", "", ""⟩ 0 (fun _ => Except.ok ())
       ⟨1, "ac", "Acme", "a@x", none, "ACTIVE", none, some (2 * msPerDay),
        none, none, none⟩).1.lastReminderAt = some 0 :=
  (reminder_recorded_and_sent ⟨"", 3, 30⟩ ⟨"", "", "", ""⟩ 0
    (fun _ => Except.ok ())
    ⟨1, "ac", "Acme", "a@x", none, "ACTIVE", none, some (2 * msPerDay),
     none, none, none⟩ 2 rfl (by decide) (by decide) (by decide)
    (fun t h => Option.noConfusion h)).1

/-- C4: `getDaysLeft` is the ceiling of `(dueAt - now) / 1 day`: it
returns the unique integer `k` with `(k-1)·day < dueAt - now ≤ k·day`;
a due date 18 hours away yields `daysLeft = 1`, and the reminder then
attempted reads "1 day(s) left". -/
theorem daysLeft_is_ceiling :
    (∀ now due : Int, ∃ k : Int, getDaysLeft now (some due) = some k ∧
        (k - 1) * msPerDay < due - now ∧ due - now ≤ k * msPerDay) ∧
    (∀ now : Int, getDaysLeft now (some (now + 18 * msPerHour)) = some 1) ∧
    (∀ (cfg : Config) (econf : EmailConfig) (now : Int)
        (oracle : Email → Except String Unit) (c : Client),
        c.status = "ACTIVE" → c.dueAt = some (now + 18 * msPerHour) →
        c.lastReminderAt = none → 1 ≤ cfg.remindDaysBefore →
        attempted (checkClient cfg econf now oracle c).2 =
          [⟨c.email, "Payment Reminder: 1 day(s) left"⟩]) := by
  have hceil : ∀ now : Int,
      ceilDiv (now + 18 * msPerHour - now) msPerDay = 1 := by
    intro now
    simp only [ceilDiv, msPerHour_eq, msPerDay_eq]
    omega
  refine ⟨?_, ?_, ?_⟩
  · intro now due
    refine ⟨ceilDiv (due - now) msPerDay, rfl, ?_, ?_⟩ <;>
      · simp only [ceilDiv, msPerDay_eq]
        omega
  · intro now
    show some (ceilDiv (now + 18 * msPerHour - now) msPerDay) = some 1
    rw [hceil]
  · intro cfg econf now oracle c hact hdue hlrem hwin
    rw [checkClient_reminder cfg econf now oracle c _ hdue hact
      (by rw [hceil]; omega) (by rw [hceil]; omega)
      (fun t h => by rw [hlrem] at h; exact Option.noConfusion h)]
    simp only [attempted, sendTo, List.map_cons, List.map_nil, hceil]
    rfl

/-- C4 witness: at `now = 0` a due date 18 hours away reports 1 day left. -/
theorem daysLeft_is_ceiling_witness :
    getDaysLeft 0 (some (0 + 18 * msPerHour)) = some 1 :=
  daysLeft_is_ceiling.2.1 0

/-- C5: mark-paid on any existing client, whatever its prior status and
`dueAt`, stores a record with `status = ACTIVE`, `startedAt = now` and
`dueAt = now + PLAN_DAYS` exactly — an unconditional reset. -/
theorem markPaid_resets_dueAt
    (cfg : Config) (econf : EmailConfig) (now : Int)
    (oracle : Email → Except String Unit) (clients : List Client) (i : Nat)
    (c : Client) (hfind : findClientById clients i = some c) :
    findClientById (markPaidRoute cfg econf now oracle clients i).1 i =
      some (markPaidUpdate now cfg.planDays c) ∧
    (markPaidUpdate now cfg.planDays c).status = "ACTIVE" ∧
    (markPaidUpdate now cfg.planDays c).startedAt = some now ∧
    (markPaidUpdate now cfg.planDays c).dueAt =
      some (now + cfg.planDays * msPerDay) ∧
    attempted (markPaidRoute cfg econf now oracle clients i).2 =
      [⟨c.email, reactivatedSubject⟩] := by
  have hroute : markPaidRoute cfg econf now oracle clients i =
      (updateClientById clients i (markPaidUpdate now cfg.planDays),
       [sendTo econf oracle ⟨c.email, reactivatedSubject⟩]) := by
    simp [markPaidRoute, hfind]
  rw [hroute]
  refine ⟨?_, rfl, rfl, rfl, by simp [attempted, sendTo]⟩
  rw [findClientById_updateClientById clients i (markPaidUpdate now cfg.planDays)
    (fun x => rfl), hfind]
  rfl

/-- C5 witness: a paused client with `dueAt` far in the past is reset to
`dueAt = now + 30 days`, not extended. -/
theorem markPaid_resets_dueAt_witness :
    (markPaidUpdate 1000 30
      (⟨7, "c1", "N", "n@x", none, "PAUSED", some 0, some (-999999),
        some 2, some "expired", some 5⟩ : Client)).dueAt =
      some (1000 + 30 * msPerDay) :=
  (markPaid_resets_dueAt ⟨"", 3, 30⟩ ⟨"", "", "", ""⟩ 1000
    (fun _ => Except.ok ())
    [⟨7, "c1", "N", "n@x", none, "PAUSED", some 0, some (-999999), some 2,
      some "expired", some 5⟩] 7
    ⟨7, "c1", "N", "n@x", none, "PAUSED", some 0, some (-999999), some 2,
     some "expired", some 5⟩ (by decide)).2.2.2.1

/-- C3: a client reminded by a first reconciliation pass (its stored row
has `lastReminderAt = now1`) is suppressed by a second pass run at any
`now2` with `now2 - now1 < 24h` (a wall-clock delta, so a calendar-day
boundary in between changes nothing): the second pass leaves
`lastReminderAt` unchanged and attempts zero reminder emails for it. -/
theorem second_pass_within_24h_suppressed
    (cfg : Config) (econf1 econf2 : EmailConfig) (now1 now2 : Int)
    (oracle1 oracle2 : Email → Except String Unit)
    (clients : List Client) (i : Nat)
    (h1 : i < (subscriptionCheck cfg econf1 now1 oracle1 clients).1.length)
    (c1 : Client)
    (hc1 : (subscriptionCheck cfg econf1 now1 oracle1 clients).1.get ⟨i, h1⟩ = c1)
    (hrem : c1.lastReminderAt = some now1)
    (hlt : now2 - now1 < 24 * msPerHour) :
    (checkClient cfg econf2 now2 oracle2 c1).1.lastReminderAt = some now1 ∧
    (∀ j : Int, ((attempted (checkClient cfg econf2 now2 oracle2 c1).2).countP
      (fun e => e.subject == reminderSubject j)) = 0) ∧
    (subscriptionCheck cfg econf2 now2 oracle2
        ((subscriptionCheck cfg econf1 now1 oracle1 clients).1)).1 =
      ((subscriptionCheck cfg econf1 now1 oracle1 clients).1).map
        (fun x => (checkClient cfg econf2 now2 oracle2 x).1) :=
  ⟨(checkClient_suppressed cfg econf2 now2 oracle2 c1 now1 hrem hlt).1,
   (checkClient_suppressed cfg econf2 now2 oracle2 c1 now1 hrem hlt).2,
   subscriptionCheck_fst cfg econf2 now2 oracle2 _⟩

/-- C3 witness: reminded at 23:59 (ms 86340000 of day 0), re-checked at
00:05 the next day (ms 86700000): `lastReminderAt` is unchanged. -/
theorem second_pass_within_24h_suppressed_witness :
    (checkClient ⟨"", 3, 30⟩ ⟨"", "", "", ""⟩ 86700000 (fun _ => Except.ok ())
       ⟨1, "ac", "Acme", "a@x", none, "ACTIVE", none,
        some (86340000 + 2 * 86400000), none, none,
        some 86340000⟩).1.lastReminderAt = some 86340000 :=
  (second_pass_within_24h_suppressed ⟨"", 3, 30⟩ ⟨"", "", "", ""⟩
    ⟨"", "", "", ""⟩ 86340000 86700000 (fun _ => Except.ok ())
    (fun _ => Except.ok ())
    [⟨1, "ac", "Acme", "a@x", none, "ACTIVE", none,
      some (86340000 + 2 * 86400000), none, none, none⟩] 0 (by decide)
    ⟨1, "ac", "Acme", "a@x", none, "ACTIVE", none,
     some (86340000 + 2 * 86400000), none, none, some 86340000⟩
    (by decide) (by decide) (by decide)).1

/-- C6 counterexample: in `src/src/server.js` the mark-paid patch
(lines 306-309) does not null `lastReminderAt`: a client stored with
`lastReminderAt = some 5` still has it after mark-paid, so the claim
that all three fields become null is false at this input. -/
theorem markPaid_does_not_clear_lastReminderAt_cex :
    ((markPaidRoute ⟨"", 3, 30⟩ ⟨"", "", "", ""⟩ 1000 (fun _ => Except.ok ())
        [⟨7, "c1", "N", "n@x", none, "PAUSED", some 0, some 100, some 200,
          some "expired", some 5⟩] 7).1.map (fun c => c.lastReminderAt)) =
        [some 5] ∧
    ((markPaidRoute ⟨"", 3, 30⟩ ⟨"", "", "", ""⟩ 1000 (fun _ => Except.ok ())
        [⟨7, "c1", "N", "n@x", none, "PAUSED", some 0, some 100, some 200,
          some "expired", some 5⟩] 7).1.map (fun c => c.lastReminderAt)) ≠
        [none] := by
  decide

/-- C6 (amended): mark-paid clears `pausedAt` and `pauseReason` (both
become null) but leaves `lastReminderAt` unchanged. -/
theorem markPaid_clears_pause_fields
    (cfg : Config) (econf : EmailConfig) (now : Int)
    (oracle : Email → Except String Unit) (clients : List Client) (i : Nat)
    (c : Client) (hfind : findClientById clients i = some c) :
    findClientById (markPaidRoute cfg econf now oracle clients i).1 i =
      some (markPaidUpdate now cfg.planDays c) ∧
    (markPaidUpdate now cfg.planDays c).pausedAt = none ∧
    (markPaidUpdate now cfg.planDays c).pauseReason = none ∧
    (markPaidUpdate now cfg.planDays c).lastReminderAt = c.lastReminderAt := by
  have hroute : markPaidRoute cfg econf now oracle clients i =
      (updateClientById clients i (markPaidUpdate now cfg.planDays),
       [sendTo econf oracle ⟨c.email, reactivatedSubject⟩]) := by
    simp [markPaidRoute, hfind]
  rw [hroute]
  refine ⟨?_, rfl, rfl, rfl⟩
  rw [findClientById_updateClientById clients i (markPaidUpdate now cfg.planDays)
    (fun x => rfl), hfind]
  rfl

/-- C6 (amended) witness: the reminder timestamp of a concrete client
survives mark-paid while the pause fields are nulled. -/
theorem markPaid_clears_pause_fields_witness :
    (markPaidUpdate 1000 30
      (⟨7, "c1", "N", "n@x", none, "PAUSED", some 0, some 100, some 200,
        some "expired", some 5⟩ : Client)).lastReminderAt =
      (⟨7, "c1", "N", "n@x", none, "PAUSED", some 0, some 100, some 200,
        some "expired", some 5⟩ : Client).lastReminderAt :=
  (markPaid_clears_pause_fields ⟨"", 3, 30⟩ ⟨"", "", "", ""⟩ 1000
    (fun _ => Except.ok ())
    [⟨7, "c1", "N", "n@x", none, "PAUSED", some 0, some 100, some 200,
      some "expired", some 5⟩] 7
    ⟨7, "c1", "N", "n@x", none, "PAUSED", some 0, some 100, some 200,
     some "expired", some 5⟩ (by decide)).2.2.2

/-- C7: `sendEmail` never raises — a missing configuration and a thrown
transport error both produce a plain not-delivered result value — and
consequently the client states and the set of attempted emails of a
whole reconciliation pass do not depend on any send's transport outcome:
one client's failed send neither aborts the rest nor rolls back its
already-applied state change. -/
theorem sendEmail_never_raises_and_failures_isolated :
    (∀ (econf : EmailConfig) (t : Except String Unit),
        smtpReady econf = false →
        sendEmail econf t = { ok := false, error := none }) ∧
    (∀ (econf : EmailConfig) (e : String),
        sendEmail econf (Except.error e) =
          (if smtpReady econf then { ok := false, error := some e }
           else { ok := false, error := none })) ∧
    (∀ (cfg : Config) (econf : EmailConfig) (now : Int)
        (o o' : Email → Except String Unit) (clients : List Client),
        (subscriptionCheck cfg econf now o clients).1 =
          (subscriptionCheck cfg econf now o' clients).1 ∧
        attempted (subscriptionCheck cfg econf now o clients).2 =
          attempted (subscriptionCheck cfg econf now o' clients).2) := by
  refine ⟨?_, ?_, ?_⟩
  · intro econf t h
    simp [sendEmail, sendEmailAttempt, h]
  · intro econf e
    by_cases h : smtpReady econf <;> simp [sendEmail, sendEmailAttempt, h]
  · intro cfg econf now o o' clients
    induction clients with
    | nil => exact ⟨rfl, rfl⟩
    | cons c rest ih =>
      have hc := checkClient_oracle_irrelevant cfg econf now o o' c
      refine ⟨?_, ?_⟩
      · show (checkClient cfg econf now o c).1 ::
            (subscriptionCheck cfg econf now o rest).1 =
          (checkClient cfg econf now o' c).1 ::
            (subscriptionCheck cfg econf now o' rest).1
        rw [hc.1, ih.1]
      · show attempted ((checkClient cfg econf now o c).2 ++
            (subscriptionCheck cfg econf now o rest).2) =
          attempted ((checkClient cfg econf now o' c).2 ++
            (subscriptionCheck cfg econf now o' rest).2)
        simp only [attempted, List.map_append] at hc ih ⊢
        rw [hc.2, ih.2]

/-- C7 witness: with SMTP unset, `sendEmail` returns the not-delivered
value rather than escalating. -/
theorem sendEmail_never_raises_witness :
    sendEmail ⟨"", "", "", ""⟩ (Except.ok ()) = { ok := false, error := none } :=
  sendEmail_never_raises_and_failures_isolated.1 ⟨"", "", "", ""⟩
    (Except.ok ()) rfl

/-- C8: a lead submitted against an existing client code is always
persisted; the client notification, the operator notification (only with
an operator address configured) and the booking-link auto-reply (only
with a booking link configured) are attempted exactly when the owning
client is ACTIVE, and a PAUSED client gets zero notifications. -/
theorem lead_persisted_and_notified_iff_active
    (cfg : Config) (econf : EmailConfig)
    (oracle : Email → Except String Unit) (clients : List Client)
    (leads : List Lead) (code name email phone message : String)
    (client : Client)
    (hfind : findClientByCode clients code = some client) :
    (leadRoute cfg econf oracle clients leads code name email phone
        message).map (fun r => r.1) =
      some (leads ++ [leadOf client name email phone message]) ∧
    (client.status = "ACTIVE" →
      (leadRoute cfg econf oracle clients leads code name email phone
          message).map (fun r => attempted r.2) =
        some ([⟨client.email, newLeadSubject⟩] ++
          (if cfg.notifyEmail ≠ "" then
            [⟨cfg.notifyEmail, clientNewLeadSubject client⟩] else []) ++
          (if client.bookingLink.isSome then
            [⟨email, bookYourCallSubject⟩] else []))) ∧
    (client.status = "PAUSED" →
      (leadRoute cfg econf oracle clients leads code name email phone
          message).map (fun r => attempted r.2) = some []) := by
  refine ⟨?_, ?_, ?_⟩
  · simp [leadRoute, hfind]
  · intro hact
    simp only [leadRoute, hfind, if_pos hact]
    by_cases hn : cfg.notifyEmail ≠ "" <;>
      by_cases hb : client.bookingLink.isSome <;>
        simp [attempted, sendTo, hn, hb, leadOf]
  · intro hp
    have hna : ¬ client.status = "ACTIVE" := by simp [hp]
    simp [leadRoute, hfind, hna, attempted]

/-- C8 witness: a lead for a PAUSED client (booking link and operator
address both configured) triggers zero notification attempts. -/
theorem lead_persisted_and_notified_iff_active_witness :
    (leadRoute ⟨"op@x", 3, 30⟩ ⟨"", "", "", ""⟩ (fun _ => Except.ok ())
        [⟨1, "ac", "Acme", "a@x", some "https://b", "PAUSED", none,
          some 100, some 50, some "expired", none⟩] [] "ac" "L" "l@x" ""
        "hi").map (fun r => attempted r.2) = some [] :=
  (lead_persisted_and_notified_iff_active ⟨"op@x", 3, 30⟩ ⟨"", "", "", ""⟩
    (fun _ => Except.ok ())
    [⟨1, "ac", "Acme", "a@x", some "https://b", "PAUSED", none, some 100,
      some 50, some "expired", none⟩] [] "ac" "L" "l@x" "" "hi"
    ⟨1, "ac", "Acme", "a@x", some "https://b", "PAUSED", none, some 100,
     some 50, some "expired", none⟩ (by decide)).2.2 rfl

/-- C9: the intake-approval code is derived from the business name as a
string of at most 12 lowercase-alphanumeric characters; when the base is
free it is used as is; when it collides the loop deterministically
disambiguates with a numeric suffix — a taken base `"acme"` with
`"acme2"` free yields exactly `"acme2"` — and whenever a candidate
within the store-size bound is free, the derived code is collision-free. -/
theorem intake_code_derivation :
    (∀ name : String, (deriveBaseCode name).length ≤ 12 ∧
        ∀ ch ∈ (deriveBaseCode name).toList, isCodeChar ch = true) ∧
    (∀ (clients : List Client) (name : String),
        codeTaken clients (deriveBaseCode name) = false →
        deriveUniqueCode clients name = deriveBaseCode name) ∧
    (∀ (clients : List Client) (name : String),
        deriveBaseCode name = "acme" →
        codeTaken clients "acme" = true →
        codeTaken clients "acme2" = false →
        deriveUniqueCode clients name = "acme2") ∧
    (∀ (clients : List Client) (name : String) (n : Nat),
        1 ≤ n → n ≤ clients.length + 1 →
        codeTaken clients (codeCandidate (deriveBaseCode name) n) = false →
        codeTaken clients (deriveUniqueCode clients name) = false) := by
  refine ⟨?_, ?_, ?_, ?_⟩
  · intro name
    by_cases h1 : name = ""
    · subst h1
      exact ⟨by decide, by decide⟩
    · have hd : deriveBaseCode name =
          (if String.mk (((name.toList.map Char.toLower).filter
              isCodeChar).take 12) = "" then "client"
           else String.mk (((name.toList.map Char.toLower).filter
              isCodeChar).take 12)) := by
        simp [deriveBaseCode, h1]
      rw [hd]
      split_ifs with h2
      · exact ⟨by decide, by decide⟩
      · constructor
        · show (((name.toList.map Char.toLower).filter
              isCodeChar).take 12).length ≤ 12
          simp [List.length_take]
        · intro ch hch
          exact List.of_mem_filter (List.take_subset 12 _ hch)
  · intro clients name hfree
    simp [deriveUniqueCode, searchFreeCode, codeCandidate, hfree]
  · intro clients name hbase htaken hfree
    cases clients with
    | nil => exact absurd htaken (by decide)
    | cons c rest =>
      have hc1 : codeCandidate "acme" 1 = "acme" := by decide
      have hc2 : codeCandidate "acme" 2 = "acme2" := by decide
      simp [deriveUniqueCode, hbase, List.length_cons, searchFreeCode, hc1,
        hc2, htaken, hfree]
  · intro clients name n h1 h2 hfree
    exact searchFreeCode_free clients (deriveBaseCode name)
      (clients.length + 1) 1 ⟨n, h1, by omega, hfree⟩

/-- C9 witness: with `"acme"` taken, approving an intake whose business
name is `"Acme!"` derives the code `"acme2"`. -/
theorem intake_code_derivation_witness :
    deriveUniqueCode
      [⟨1, "acme", "A", "a@x", none, "ACTIVE", none, none, none, none,
        none⟩] "Acme!" = "acme2" :=
  intake_code_derivation.2.2.1
    [⟨1, "acme", "A", "a@x", none, "ACTIVE", none, none, none, none, none⟩]
    "Acme!" (by decide) (by decide) (by decide)

/-- C10: the manual pause action on a client that is already PAUSED is
neither a no-op nor an error: the stored row gets `pausedAt = now`, its
`pauseReason` is overwritten to `"manual"`, and one more pause
notification email is attempted. -/
theorem pause_already_paused_restamps
    (econf : EmailConfig) (now : Int) (oracle : Email → Except String Unit)
    (clients : List Client) (i : Nat) (c : Client)
    (hfind : findClientById clients i = some c)
    (hp : c.status = "PAUSED") :
    findClientById (pauseRoute econf now oracle clients i).1 i =
      some (pauseUpdate now c) ∧
    (pauseUpdate now c).status = "PAUSED" ∧
    (pauseUpdate now c).pausedAt = some now ∧
    (pauseUpdate now c).pauseReason = some "manual" ∧
    attempted (pauseRoute econf now oracle clients i).2 =
      [⟨c.email, pausedSubject⟩] := by
  have hroute : pauseRoute econf now oracle clients i =
      (updateClientById clients i (pauseUpdate now),
       [sendTo econf oracle ⟨c.email, pausedSubject⟩]) := by
    simp [pauseRoute, hfind]
  rw [hroute]
  refine ⟨?_, rfl, rfl, rfl, by simp [attempted, sendTo]⟩
  rw [findClientById_updateClientById clients i (pauseUpdate now)
    (fun x => rfl), hfind]
  rfl

/-- C10 witness: pausing a client already paused with reason
`"expired"` overwrites the reason to `"manual"`. -/
theorem pause_already_paused_restamps_witness :
    (pauseUpdate 1000
      (⟨7, "c1", "N", "n@x", none, "PAUSED", some 0, some 100, some 7,
        some "expired", none⟩ : Client)).pauseReason = some "manual" :=
  (pause_already_paused_restamps ⟨"", "", "", ""⟩ 1000
    (fun _ => Except.ok ())
    [⟨7, "c1", "N", "n@x", none, "PAUSED", some 0, some 100, some 7,
      some "expired", none⟩] 7
    ⟨7, "c1", "N", "n@x", none, "PAUSED", some 0, some 100, some 7,
     some "expired", none⟩ (by decide) (by decide)).2.2.2.1

end Orbit
